import Mathlib

/-!
Shallow embedding of the arcade drone shooter's simulation core
(`src/components/GameCanvas.tsx` and `src/hooks/useProjectiles.tsx`).

JavaScript numbers are modelled as rationals (`ℚ`); the per-frame mutable
state threaded through React `useState` setters is modelled by explicit
state passing.  Entity `id` strings (random render keys) are omitted: no
simulated behaviour reads them.  Event callbacks (`onEnemyDestroyed`,
`onEnemyReachedBottom`, `onPowerUpCollected`) are modelled as an ordered
list of emitted `GameEvent`s.
-/

namespace Game

/-- Bullet kinds, from `useProjectiles.tsx` (`BulletType`). -/
inductive BulletType
  | standard
  | laser
  | plasma
  | explosive
deriving DecidableEq, Repr

/-- Enemy kinds, from the `Enemy` interface in `GameCanvas.tsx`. -/
inductive EnemyType
  | basic
  | armored
  | fast
  | boss
  | special
deriving DecidableEq, Repr

/-- Power-up kinds, from the `PowerUp` interface in `GameCanvas.tsx`. -/
inductive PowerUpType
  | rapidFire
  | shield
  | multiShot
  | bomb
deriving DecidableEq, Repr

/-- A timed power-up slot `{active, duration, remaining}` on the player. -/
structure PowerUpTimer where
  active : Bool
  duration : ℚ
  remaining : ℚ
deriving DecidableEq, Repr

/-- The player's `powerUps` record (the optional `bomb` slot is never
read or written by the simulation code, so it is omitted). -/
structure PlayerPowerUps where
  rapidFire : Option PowerUpTimer
  shield : Option PowerUpTimer
  multiShot : Option PowerUpTimer
deriving DecidableEq, Repr

/-- The `Player` state from `GameCanvas.tsx` / `useProjectiles.tsx`. -/
structure Player where
  x : ℚ
  y : ℚ
  width : ℚ
  height : ℚ
  cooldown : ℚ
  currentCooldown : ℚ
  shieldActive : Bool
  currentBulletType : Option BulletType
  powerUps : PlayerPowerUps
deriving DecidableEq, Repr

/-- An `Enemy` entity (the random `id` render key is omitted). -/
structure Enemy where
  x : ℚ
  y : ℚ
  type : EnemyType
  health : ℚ
  speed : ℚ
  width : ℚ
  height : ℚ
deriving DecidableEq, Repr

/-- A `Projectile` entity (the random `id` render key is omitted). -/
structure Projectile where
  x : ℚ
  y : ℚ
  speed : ℚ
  width : ℚ
  height : ℚ
  isSpecial : Bool
  isCharged : Bool
  chargeLevel : ℕ
  damage : ℚ
  bulletType : BulletType
deriving DecidableEq, Repr

/-- A `PowerUp` pickup entity (the random `id` render key is omitted). -/
structure PowerUp where
  x : ℚ
  y : ℚ
  type : PowerUpType
  speed : ℚ
  width : ℚ
  height : ℚ
deriving DecidableEq, Repr

/-- Callback invocations made by the simulation, in program order. -/
inductive GameEvent
  | enemyDestroyed (points : ℚ)
  | enemyReachedBottom
  | powerUpCollected (type : PowerUpType)
deriving DecidableEq, Repr

/-! ## Projectile subsystem (`useProjectiles.tsx`) -/

/-- `maxChargeLevel = 5` in `useProjectiles.tsx`. -/
def maxChargeLevel : ℕ := 5

/-- Charge level from a hold duration in milliseconds:
`Math.min(Math.floor(chargeTime / 300), maxChargeLevel)`, used both by
`handlePointerUp` and by the 100 ms polling interval. -/
def chargeLevelOf (elapsedMs : ℕ) : ℕ :=
  min (elapsedMs / 300) maxChargeLevel

/-- Base projectile width per bullet type (`switch (bulletType)`). -/
def bulletBaseWidth : BulletType → ℚ
  | .laser => 6
  | .plasma => 14
  | .explosive => 16
  | .standard => 10

/-- Base projectile height per bullet type. -/
def bulletBaseHeight : BulletType → ℚ
  | .laser => 30
  | .plasma => 14
  | .explosive => 16
  | .standard => 20

/-- Base projectile speed per bullet type (0.8 / 0.6 / 0.4 / 0.5). -/
def bulletBaseSpeed : BulletType → ℚ
  | .laser => 4/5
  | .plasma => 3/5
  | .explosive => 2/5
  | .standard => 1/2

/-- Base projectile damage per bullet type (1.2 / 1.5 / 2 / 1). -/
def bulletBaseDamage : BulletType → ℚ
  | .laser => 6/5
  | .plasma => 3/2
  | .explosive => 2
  | .standard => 1

/-- `player.powerUps.rapidFire?.active` (truthy test). -/
def rapidFireActive (pl : Player) : Bool :=
  (pl.powerUps.rapidFire.map (·.active)).getD false

/-- `player.powerUps.multiShot?.active` (truthy test). -/
def multiShotActive (pl : Player) : Bool :=
  (pl.powerUps.multiShot.map (·.active)).getD false

/-- Width/height/speed/damage of the projectile about to be fired. -/
structure ProjStats where
  width : ℚ
  height : ℚ
  speed : ℚ
  damage : ℚ
deriving DecidableEq, Repr

/-- The dimension/speed/damage computation of `fireProjectile`: bullet-type
base values, then the special-fire or charged-shot modifier, then the
rapid-fire modifier. -/
def projStats (bt : BulletType) (isSpecialFire : Bool) (chargeLevel : ℕ)
    (rapid : Bool) : ProjStats :=
  let s0 : ProjStats :=
    ⟨bulletBaseWidth bt, bulletBaseHeight bt, bulletBaseSpeed bt, bulletBaseDamage bt⟩
  let s1 : ProjStats :=
    if isSpecialFire then
      ⟨s0.width * 2, s0.height * (3/2), 7/10, 3⟩
    else if 0 < chargeLevel then
      ⟨s0.width + chargeLevel * 2, s0.height + chargeLevel * 3,
        s0.speed + chargeLevel * (1/20), s0.damage + ((chargeLevel / 2 : ℕ) : ℚ)⟩
    else s0
  if rapid then
    ⟨s1.width, s1.height, min (s1.speed * (7/5)) 1, s1.damage * (6/5)⟩
  else s1

/-- The `baseProjectile` local of `fireProjectile`. -/
def firedProjectile (hookBulletType : BulletType) (isSpecialFire : Bool)
    (chargeLevel : ℕ) (pl : Player) : Projectile :=
  let bt := pl.currentBulletType.getD hookBulletType
  let st := projStats bt isSpecialFire chargeLevel (rapidFireActive pl)
  { x := pl.x + pl.width / 2 - st.width / 2
    y := pl.y - st.height
    speed := st.speed
    width := st.width
    height := st.height
    isSpecial := isSpecialFire
    isCharged := decide (0 < chargeLevel)
    chargeLevel := chargeLevel
    damage := st.damage
    bulletType := bt }

/-- The `newProjectiles` local of `fireProjectile`: one projectile for a
special shot, three (x−20 / x / x+20) when multiShot is active, else one. -/
def fireNewProjectiles (hookBulletType : BulletType) (isSpecialFire : Bool)
    (chargeLevel : ℕ) (pl : Player) : List Projectile :=
  let base := firedProjectile hookBulletType isSpecialFire chargeLevel pl
  if isSpecialFire then [base]
  else if multiShotActive pl then
    [{ base with x := base.x - 20 }, base, { base with x := base.x + 20 }]
  else [base]

/-- The `cooldownTime` local of `fireProjectile`. -/
def fireCooldown (isSpecialFire : Bool) (chargeLevel : ℕ) (pl : Player) : ℚ :=
  if isSpecialFire then 1000
  else if 0 < chargeLevel then 500 + chargeLevel * 100
  else if rapidFireActive pl then 150
  else 500

/-- The projectile list together with the player, the two pieces of state
`fireProjectile` updates. -/
structure FireState where
  projectiles : List Projectile
  player : Player
deriving DecidableEq, Repr

/-- `fireProjectile(isSpecialFire, chargeLevel)`: no-op when
`player.currentCooldown > 0`, otherwise appends the new projectiles and
sets the player's `currentCooldown`. -/
def fireProjectile (hookBulletType : BulletType) (isSpecialFire : Bool)
    (chargeLevel : ℕ) (s : FireState) : FireState :=
  if 0 < s.player.currentCooldown then s
  else
    { projectiles :=
        s.projectiles ++ fireNewProjectiles hookBulletType isSpecialFire chargeLevel s.player
      player := { s.player with currentCooldown := fireCooldown isSpecialFire chargeLevel s.player } }

/-- Game status values. -/
inductive GameStatus
  | menu
  | playing
  | paused
  | gameOver
deriving DecidableEq, Repr

/-- The props of `useProjectiles` consulted by the pointer handlers. -/
structure PointerEnv where
  isPaused : Bool
  gameActive : Bool
  gameStatus : GameStatus
deriving DecidableEq, Repr

/-- The hook's charge state (`chargeStartTime`, `currentChargeLevel`). -/
structure ChargeState where
  chargeStartTime : Option ℕ
  currentChargeLevel : ℕ
deriving DecidableEq, Repr

/-- `handlePointerUp`: guarded no-op when paused, inactive, not playing,
or when no charge is in progress; otherwise fires with the accumulated
charge level and clears the charge state. `now` is `Date.now()`. -/
def handlePointerUp (env : PointerEnv) (now : ℕ) (hookBulletType : BulletType)
    (cs : ChargeState) (s : FireState) : ChargeState × FireState :=
  if env.isPaused || !env.gameActive || env.gameStatus != .playing
      || cs.chargeStartTime.isNone then
    (cs, s)
  else
    let start := cs.chargeStartTime.getD 0
    let chargeLevel := chargeLevelOf (now - start)
    (⟨none, 0⟩, fireProjectile hookBulletType false chargeLevel s)

/-! ## Entity spawner (`GameCanvas.tsx`) -/

/-- The record returned by `getEnemyConfigForStage`. -/
structure EnemyConfig where
  type : EnemyType
  health : ℚ
  speed : ℚ
  width : ℚ
  height : ℚ
deriving DecidableEq, Repr

/-- `getEnemyConfigForStage(currentStage)`, with the `Math.random()` draw
`r` made an explicit argument: an else-if chain picks the type, then a
switch (defaulting to the basic stats) picks the per-type stats. -/
def getEnemyConfigForStage (currentStage : ℕ) (r : ℚ) : EnemyConfig :=
  let type : EnemyType :=
    if 10 ≤ currentStage ∧ r < 1/10 then .boss
    else if 5 ≤ currentStage ∧ r < 3/10 then .armored
    else if 3 ≤ currentStage ∧ r < 2/5 then .fast
    else .basic
  match type with
  | .armored => ⟨.armored, 3, 3/100, 50, 50⟩
  | .fast => ⟨.fast, 1, 1/10, 30, 30⟩
  | .boss => ⟨.boss, 10, 1/50, 80, 80⟩
  | t => ⟨t, 1, 1/20, 40, 40⟩

/-! ## Collision and resolution engine (`checkCollisions` in
`GameCanvas.tsx`)

The three `forEach` loops walk the frame's original `projectiles`,
`enemies` and `powerUps` snapshots while writing into copies whose
entries can be nulled (`List (Option _)` here); the copies are filtered
and written back at the end of the function. -/

/-- Axis-aligned bounding-box overlap, exactly the four strict
comparisons used by all three collision checks. -/
def rectOverlap (ax aw ay ah bx bw b_y bh : ℚ) : Bool :=
  decide (ax < bx + bw) && decide (ax + aw > bx)
    && decide (ay < b_y + bh) && decide (ay + ah > b_y)

/-- Projectile-vs-enemy overlap test. -/
def projEnemyOverlap (p : Projectile) (e : Enemy) : Bool :=
  rectOverlap p.x p.width p.y p.height e.x e.width e.y e.height

/-- Player-vs-powerup overlap test. -/
def playerPowerUpOverlap (pl : Player) (pu : PowerUp) : Bool :=
  rectOverlap pl.x pl.width pl.y pl.height pu.x pu.width pu.y pu.height

/-- Player-vs-enemy overlap test. -/
def playerEnemyOverlap (pl : Player) (e : Enemy) : Bool :=
  rectOverlap pl.x pl.width pl.y pl.height e.x e.width e.y e.height

/-- `const damage = projectile.damage || 1` (a falsy damage of 0 is
replaced by 1). -/
def hitDamage (p : Projectile) : ℚ :=
  if p.damage = 0 then 1 else p.damage

/-- Points per destroyed enemy type (`switch (enemy.type)` with default
10). -/
def enemyPoints : EnemyType → ℚ
  | .armored => 30
  | .fast => 20
  | .boss => 100
  | _ => 10

/-- Accumulator of the projectile-enemy loop: the nullable copies of the
two entity arrays, the emitted events, and the `enemiesDestroyed` flag. -/
structure PEAcc where
  updatedEnemies : List (Option Enemy)
  updatedProjectiles : List (Option Projectile)
  events : List GameEvent
  enemiesDestroyed : Bool
deriving DecidableEq, Repr

/-- The body of the inner projectile-enemy loop for the pair at indices
`(pIdx, eIdx)`: on overlap, write the damaged enemy (health computed from
the frame's original `enemy`), null the projectile, and if the damaged
health is ≤ 0, null the enemy and emit the destroyed event. -/
def hitEnemy (pIdx eIdx : ℕ) (p : Projectile) (e : Enemy) (acc : PEAcc) : PEAcc :=
  if projEnemyOverlap p e then
    let damaged : Enemy := { e with health := e.health - hitDamage p }
    let acc1 : PEAcc :=
      { acc with
        updatedEnemies := acc.updatedEnemies.set eIdx (some damaged)
        updatedProjectiles := acc.updatedProjectiles.set pIdx none }
    if damaged.health ≤ 0 then
      { acc1 with
        updatedEnemies := acc1.updatedEnemies.set eIdx none
        events := acc1.events ++ [GameEvent.enemyDestroyed (enemyPoints e.type)]
        enemiesDestroyed := true }
    else acc1
  else acc

/-- `enemies.forEach` for one projectile, carrying the running enemy
index. -/
def hitEnemies (pIdx : ℕ) (p : Projectile) (eIdx : ℕ) :
    List Enemy → PEAcc → PEAcc
  | [], acc => acc
  | e :: es, acc => hitEnemies pIdx p (eIdx + 1) es (hitEnemy pIdx eIdx p e acc)

/-- `projectiles.forEach`, carrying the running projectile index. -/
def projEnemyLoop (enemies : List Enemy) (pIdx : ℕ) :
    List Projectile → PEAcc → PEAcc
  | [], acc => acc
  | p :: ps, acc => projEnemyLoop enemies (pIdx + 1) ps (hitEnemies pIdx p 0 enemies acc)

/-- The projectile-enemy phase of `checkCollisions`, started on the fresh
copies `[...enemies]` and `[...projectiles]`. -/
def checkProjEnemy (projectiles : List Projectile) (enemies : List Enemy) : PEAcc :=
  projEnemyLoop enemies 0 projectiles
    { updatedEnemies := enemies.map some
      updatedProjectiles := projectiles.map some
      events := []
      enemiesDestroyed := false }

/-! ## Power-up application (`applyPowerUp` in `GameCanvas.tsx`) -/

/-- Result of `applyPowerUp`: the player's new `powerUps` record (written
back with `setPlayer`), the `setEnemies` call it makes if any (only the
bomb branch calls `setEnemies([])`), and the callbacks it invokes. -/
structure ApplyResult where
  powerUps : PlayerPowerUps
  enemiesSet : Option (List Enemy)
  events : List GameEvent
deriving DecidableEq, Repr

/-- `applyPowerUp(type)`, reading the frame's `player.powerUps` and
`enemies` snapshots.  Each timed kind activates its slot for its fixed
duration and notifies the parent; the bomb clears the enemies, awards
`enemies.length * 10` points, and notifies the parent. -/
def applyPowerUp (type : PowerUpType) (base : PlayerPowerUps)
    (enemies : List Enemy) : ApplyResult :=
  match type with
  | .rapidFire =>
      ⟨{ base with rapidFire := some ⟨true, 10000, 10000⟩ }, none,
        [GameEvent.powerUpCollected .rapidFire]⟩
  | .shield =>
      ⟨{ base with shield := some ⟨true, 15000, 15000⟩ }, none,
        [GameEvent.powerUpCollected .shield]⟩
  | .multiShot =>
      ⟨{ base with multiShot := some ⟨true, 8000, 8000⟩ }, none,
        [GameEvent.powerUpCollected .multiShot]⟩
  | .bomb =>
      ⟨base, some [],
        [GameEvent.enemyDestroyed ((enemies.length : ℚ) * 10),
          GameEvent.powerUpCollected .bomb]⟩

/-- Accumulator of the player-powerup loop.  `playerPowerUps` holds the
effect of the queued `setPlayer` updates (each `applyPowerUp` call
replaces the whole record, computed from the frame's original snapshot);
`enemiesSet` the last queued value-style `setEnemies`. -/
structure PUAcc where
  updatedPowerUps : List (Option PowerUp)
  playerPowerUps : PlayerPowerUps
  enemiesSet : Option (List Enemy)
  events : List GameEvent
  powerUpCollected : Bool
deriving DecidableEq, Repr

/-- Body of the `powerUps.forEach` loop: on overlap with the player,
apply the power-up (which emits its own collected event), emit the
loop's collected event, and null the entry. -/
def pickUpAt (pl : Player) (baseEnemies : List Enemy) (idx : ℕ) (pu : PowerUp)
    (acc : PUAcc) : PUAcc :=
  if playerPowerUpOverlap pl pu then
    let r := applyPowerUp pu.type pl.powerUps baseEnemies
    { updatedPowerUps := acc.updatedPowerUps.set idx none
      playerPowerUps := r.powerUps
      enemiesSet := match r.enemiesSet with
        | some l => some l
        | none => acc.enemiesSet
      events := acc.events ++ r.events ++ [GameEvent.powerUpCollected pu.type]
      powerUpCollected := true }
  else acc

/-- `powerUps.forEach`, carrying the running index. -/
def powerUpPickups (pl : Player) (baseEnemies : List Enemy) (idx : ℕ) :
    List PowerUp → PUAcc → PUAcc
  | [], acc => acc
  | pu :: pus, acc =>
      powerUpPickups pl baseEnemies (idx + 1) pus (pickUpAt pl baseEnemies idx pu acc)

/-- The player-powerup phase of `checkCollisions`. -/
def checkPlayerPowerUps (pl : Player) (baseEnemies : List Enemy)
    (powerUps : List PowerUp) : PUAcc :=
  powerUpPickups pl baseEnemies 0 powerUps
    ⟨powerUps.map some, pl.powerUps, none, [], false⟩

/-- Accumulator of the player-enemy loop. -/
structure CEAcc where
  updatedEnemies : List (Option Enemy)
  events : List GameEvent
  enemiesDestroyed : Bool
deriving DecidableEq, Repr

/-- Body of the player-enemy loop: on overlap, emit the reached-bottom
event (health loss) and null the enemy. -/
def crashAt (pl : Player) (idx : ℕ) (e : Enemy) (acc : CEAcc) : CEAcc :=
  if playerEnemyOverlap pl e then
    { updatedEnemies := acc.updatedEnemies.set idx none
      events := acc.events ++ [GameEvent.enemyReachedBottom]
      enemiesDestroyed := true }
  else acc

/-- `enemies.forEach` of the player-enemy phase. -/
def playerEnemyCrashes (pl : Player) (idx : ℕ) :
    List Enemy → CEAcc → CEAcc
  | [], acc => acc
  | e :: es, acc => playerEnemyCrashes pl (idx + 1) es (crashAt pl idx e acc)

/-- The player-enemy phase: guarded by `if (!player.shieldActive)` — only
the manual-ability flag is consulted, not the shield power-up slot. -/
def checkPlayerEnemies (pl : Player) (enemies : List Enemy)
    (updated : List (Option Enemy)) (destroyed : Bool) : CEAcc :=
  if pl.shieldActive then ⟨updated, [], destroyed⟩
  else playerEnemyCrashes pl 0 enemies ⟨updated, [], destroyed⟩

/-- The state written back by `checkCollisions`, plus the emitted events. -/
structure CollisionResult where
  enemies : List Enemy
  projectiles : List Projectile
  powerUps : List PowerUp
  player : Player
  events : List GameEvent
deriving DecidableEq, Repr

/-- `checkCollisions()`, composed from its three loops.  The queued state
updates resolve in call order, so the final `setEnemies` (the filtered
copy, issued only when `enemiesDestroyed` is set) overrides the bomb's
`setEnemies([])`; the projectile and power-up arrays are filtered only
when an entry was nulled; the player's `powerUps` record is the last one
written by `applyPowerUp` (or unchanged when nothing was picked up). -/
def checkCollisions (pl : Player) (enemies : List Enemy)
    (projectiles : List Projectile) (powerUps : List PowerUp) : CollisionResult :=
  let pe := checkProjEnemy projectiles enemies
  let pu := checkPlayerPowerUps pl enemies powerUps
  let ce := checkPlayerEnemies pl enemies pe.updatedEnemies pe.enemiesDestroyed
  { enemies :=
      if ce.enemiesDestroyed then ce.updatedEnemies.filterMap id
      else pu.enemiesSet.getD enemies
    projectiles :=
      if pe.updatedProjectiles.any (·.isNone) then pe.updatedProjectiles.filterMap id
      else projectiles
    powerUps :=
      if pu.powerUpCollected then pu.updatedPowerUps.filterMap id
      else powerUps
    player := { pl with powerUps := pu.playerPowerUps }
    events := pe.events ++ pu.events ++ ce.events }

/-- The value left in an enemy's cell by one overlapping hit of `hitEnemy`:
the enemy with `hitDamage` subtracted from the frame's original health, or
`none` when that result is ≤ 0. -/
def outcomeCell (p : Projectile) (e : Enemy) : Option Enemy :=
  if e.health - hitDamage p ≤ 0 then none
  else some { e with health := e.health - hitDamage p }

/-- An empty power-up record. -/
def basePowerUps : PlayerPowerUps := ⟨none, none, none⟩

/-- A player at the origin with the initial `GameCanvas` player fields. -/
def samplePlayer : Player :=
  { x := 0, y := 0, width := 60, height := 60, cooldown := 500,
    currentCooldown := 0, shieldActive := false, currentBulletType := none,
    powerUps := basePowerUps }

/-- A player holding an active rapidFire power-up. -/
def rapidPlayer : Player :=
  { samplePlayer with
    powerUps := { basePowerUps with rapidFire := some ⟨true, 10000, 10000⟩ } }

/-- A player holding an active multiShot power-up. -/
def multiPlayer : Player :=
  { samplePlayer with
    powerUps := { basePowerUps with multiShot := some ⟨true, 8000, 8000⟩ } }

/-- A player who picked up the shield power-up (which activates the
`powerUps.shield` slot but does not touch `shieldActive`). -/
def shieldedPlayer : Player :=
  { samplePlayer with
    powerUps := { basePowerUps with shield := some ⟨true, 15000, 15000⟩ } }

/-- A basic enemy overlapping `samplePlayer`'s bounding box. -/
def cEnemy : Enemy := ⟨10, 10, .basic, 1, 1/20, 40, 40⟩

/-- A rapidFire pickup overlapping `samplePlayer`'s bounding box. -/
def cPowerUp : PowerUp := ⟨10, 10, .rapidFire, 1/20, 30, 30⟩

/-- A shield pickup overlapping `samplePlayer`'s bounding box. -/
def cShieldPowerUp : PowerUp := ⟨5, 5, .shield, 1/20, 30, 30⟩

/-- A bomb pickup overlapping `samplePlayer`'s bounding box. -/
def cBombPU : PowerUp := ⟨10, 10, .bomb, 1/20, 30, 30⟩

/-- A health-1 basic enemy away from the player but overlapping `cpK`. -/
def eKill : Enemy := ⟨200, 0, .basic, 1, 1/20, 40, 40⟩

/-- A health-1 basic enemy overlapping neither the player nor `cpK`. -/
def eFar : Enemy := ⟨400, 0, .basic, 1, 1/20, 40, 40⟩

/-- A damage-1 projectile overlapping `eKill` only. -/
def cpK : Projectile := ⟨210, 10, 1/2, 10, 20, false, false, 0, 1, .standard⟩

/-! ## C4: firing while on cooldown is a no-op -/

/-- C4: for every player state with `currentCooldown > 0` and every
argument pair, `fireProjectile` creates no projectile and leaves the
projectile collection and every player field unchanged. -/
theorem fire_on_cooldown_noop (hookBulletType : BulletType)
    (isSpecialFire : Bool) (chargeLevel : ℕ) (s : FireState)
    (h : 0 < s.player.currentCooldown) :
    fireProjectile hookBulletType isSpecialFire chargeLevel s = s := by
  simp [fireProjectile, h]

/-- Witness for C4 at a concrete on-cooldown state. -/
theorem fire_on_cooldown_noop_witness :
    0 < (100 : ℚ) ∧
      fireProjectile .standard false 0
          ⟨[], { samplePlayer with currentCooldown := 100 }⟩
        = ⟨[], { samplePlayer with currentCooldown := 100 }⟩ :=
  ⟨by norm_num,
    fire_on_cooldown_noop .standard false 0
      ⟨[], { samplePlayer with currentCooldown := 100 }⟩ (by norm_num)⟩

/-! ## C5: the cooldown set by a successful fire -/

/-- C5: after a successful fire (`currentCooldown = 0`) the new cooldown
is 1000 ms for a special shot, else 500 + chargeLevel×100 ms for a
charged shot, else 150 ms under rapidFire, else 500 ms — special over
charged over rapid-fire. -/
theorem fire_cooldown_formula (hookBulletType : BulletType)
    (isSpecialFire : Bool) (chargeLevel : ℕ) (s : FireState)
    (h : s.player.currentCooldown = 0) :
    (fireProjectile hookBulletType isSpecialFire chargeLevel s).player.currentCooldown =
      if isSpecialFire then 1000
      else if 0 < chargeLevel then 500 + chargeLevel * 100
      else if rapidFireActive s.player then 150
      else 500 := by
  simp [fireProjectile, h, fireCooldown]

/-- Witness for C5: rapidFire active, non-special uncharged shot gives a
cooldown of exactly 150 ms. -/
theorem fire_cooldown_formula_witness :
    (fireProjectile .standard false 0 ⟨[], rapidPlayer⟩).player.currentCooldown = 150 := by
  have h := fire_cooldown_formula .standard false 0 ⟨[], rapidPlayer⟩ rfl
  simpa [rapidFireActive, rapidPlayer, samplePlayer, basePowerUps] using h

/-! ## C7: multiShot projectile fan -/

/-- C7: a successful non-special fire with multiShot active creates
exactly 3 projectiles at x−20 / x / x+20 sharing all other fields, while
a special fire creates exactly 1 projectile even with multiShot active. -/
theorem multishot_three_projectiles (hookBulletType : BulletType)
    (chargeLevel : ℕ) (s : FireState)
    (hcd : s.player.currentCooldown = 0)
    (hms : multiShotActive s.player = true) :
    (fireProjectile hookBulletType false chargeLevel s).projectiles =
        s.projectiles ++
          [{ firedProjectile hookBulletType false chargeLevel s.player with
              x := (firedProjectile hookBulletType false chargeLevel s.player).x - 20 },
            firedProjectile hookBulletType false chargeLevel s.player,
            { firedProjectile hookBulletType false chargeLevel s.player with
              x := (firedProjectile hookBulletType false chargeLevel s.player).x + 20 }]
    ∧ (fireNewProjectiles hookBulletType false chargeLevel s.player).length = 3
    ∧ (∀ q ∈ fireNewProjectiles hookBulletType false chargeLevel s.player,
        q.speed = (firedProjectile hookBulletType false chargeLevel s.player).speed
        ∧ q.width = (firedProjectile hookBulletType false chargeLevel s.player).width
        ∧ q.height = (firedProjectile hookBulletType false chargeLevel s.player).height
        ∧ q.damage = (firedProjectile hookBulletType false chargeLevel s.player).damage)
    ∧ (fireProjectile hookBulletType true chargeLevel s).projectiles =
        s.projectiles ++ [firedProjectile hookBulletType true chargeLevel s.player]
    ∧ (fireNewProjectiles hookBulletType true chargeLevel s.player).length = 1 := by
  refine ⟨?_, ?_, ?_, ?_, ?_⟩
  · simp [fireProjectile, hcd, fireNewProjectiles, hms]
  · simp [fireNewProjectiles, hms]
  · intro q hq
    simp [fireNewProjectiles, hms] at hq
    rcases hq with h | h | h <;> subst h <;> simp
  · simp [fireProjectile, hcd, fireNewProjectiles]
  · simp [fireNewProjectiles]

/-- Witness for C7 at a concrete multiShot-active state. -/
theorem multishot_three_projectiles_witness :
    (fireProjectile .standard false 0 ⟨[], multiPlayer⟩).projectiles =
      [{ firedProjectile .standard false 0 multiPlayer with
          x := (firedProjectile .standard false 0 multiPlayer).x - 20 },
        firedProjectile .standard false 0 multiPlayer,
        { firedProjectile .standard false 0 multiPlayer with
          x := (firedProjectile .standard false 0 multiPlayer).x + 20 }] := by
  have h := multishot_three_projectiles .standard 0 ⟨[], multiPlayer⟩ rfl (by decide)
  simpa using h.1

/-! ## C8: enemy kind selection and per-kind stats -/

/-- C8: with a uniform draw r ∈ [0,1), the spawned enemy is a boss when
stage ≥ 10 and r < 0.1, else armored when stage ≥ 5 and r < 0.3, else
fast when stage ≥ 3 and r < 0.4, else basic, with the fixed per-kind
stats basic {1, .05, 40×40}, armored {3, .03, 50×50}, fast {1, .1,
30×30}, boss {10, .02, 80×80}. -/
theorem enemy_config_for_stage_cases (stage : ℕ) (r : ℚ)
    (h0 : 0 ≤ r) (h1 : r < 1) :
    (10 ≤ stage → r < 1/10 →
      getEnemyConfigForStage stage r = ⟨.boss, 10, 1/50, 80, 80⟩)
    ∧ (¬ (10 ≤ stage ∧ r < 1/10) → 5 ≤ stage → r < 3/10 →
      getEnemyConfigForStage stage r = ⟨.armored, 3, 3/100, 50, 50⟩)
    ∧ (¬ (10 ≤ stage ∧ r < 1/10) → ¬ (5 ≤ stage ∧ r < 3/10) → 3 ≤ stage → r < 2/5 →
      getEnemyConfigForStage stage r = ⟨.fast, 1, 1/10, 30, 30⟩)
    ∧ (¬ (10 ≤ stage ∧ r < 1/10) → ¬ (5 ≤ stage ∧ r < 3/10) → ¬ (3 ≤ stage ∧ r < 2/5) →
      getEnemyConfigForStage stage r = ⟨.basic, 1, 1/20, 40, 40⟩) := by
  refine ⟨?_, ?_, ?_, ?_⟩
  · intro ha hb
    simp only [getEnemyConfigForStage]
    rw [if_pos (And.intro ha hb)]
  · intro hn ha hb
    simp only [getEnemyConfigForStage]
    rw [if_neg hn, if_pos (And.intro ha hb)]
  · intro hn hn' ha hb
    simp only [getEnemyConfigForStage]
    rw [if_neg hn, if_neg hn', if_pos (And.intro ha hb)]
  · intro hn hn' hn''
    simp only [getEnemyConfigForStage]
    rw [if_neg hn, if_neg hn', if_neg hn'']

/-- Witness for C8: stage 1 with draw 1/2 spawns a basic enemy. -/
theorem enemy_config_for_stage_cases_witness :
    getEnemyConfigForStage 1 (1/2) = ⟨.basic, 1, 1/20, 40, 40⟩ :=
  (enemy_config_for_stage_cases 1 (1/2) (by norm_num) (by norm_num)).2.2.2
    (by norm_num) (by norm_num) (by norm_num)

/-! ## C10: pointer-up guard -/

/-- C10: a pointer-up while paused, inactive, not in the playing status,
or with no charge in progress is a complete no-op: no projectile is
created and the charge state, projectile collection and player are
unchanged. -/
theorem pointer_up_guard_noop (env : PointerEnv) (now : ℕ)
    (hookBulletType : BulletType) (cs : ChargeState) (s : FireState)
    (h : env.isPaused = true ∨ env.gameActive = false
      ∨ env.gameStatus ≠ .playing ∨ cs.chargeStartTime = none) :
    handlePointerUp env now hookBulletType cs s = (cs, s) := by
  have hg : (env.isPaused || !env.gameActive || env.gameStatus != .playing
      || cs.chargeStartTime.isNone) = true := by
    rcases h with h | h | h | h <;> simp [h]
  simp [handlePointerUp, hg]

/-- Witness for C10: pointer-up with no charge in progress. -/
theorem pointer_up_guard_noop_witness :
    handlePointerUp ⟨false, true, .playing⟩ 1000 .standard ⟨none, 0⟩
        ⟨[], samplePlayer⟩ = (⟨none, 0⟩, ⟨[], samplePlayer⟩) :=
  pointer_up_guard_noop ⟨false, true, .playing⟩ 1000 .standard ⟨none, 0⟩
    ⟨[], samplePlayer⟩ (Or.inr (Or.inr (Or.inr rfl)))

/-! ## C3: player × power-up pickups -/

/-- C3 counterexample: a single pickup emits the collected event twice —
once inside `applyPowerUp` and once more in the collision loop — not
exactly once as claimed. -/
theorem powerup_collected_twice :
    playerPowerUpOverlap samplePlayer cPowerUp = true
    ∧ (checkPlayerPowerUps samplePlayer [] [cPowerUp]).events.count
        (GameEvent.powerUpCollected .rapidFire) = 2 := by
  have hov : playerPowerUpOverlap samplePlayer cPowerUp = true := by
    norm_num [playerPowerUpOverlap, rectOverlap, samplePlayer, cPowerUp]
  have hty : cPowerUp.type = .rapidFire := rfl
  refine ⟨hov, ?_⟩
  simp [checkPlayerPowerUps, powerUpPickups, pickUpAt, hov, hty, applyPowerUp,
    List.count_cons]

/-- C3 amended: on a player × power-up overlap the effect is applied and
the power-up removed, but the collected event carrying its kind is
emitted exactly twice per pickup (once by `applyPowerUp`, once by the
collision loop). -/
theorem powerup_pickup_resolution (pl : Player) (baseEnemies : List Enemy)
    (pu : PowerUp) (hov : playerPowerUpOverlap pl pu = true) :
    (checkPlayerPowerUps pl baseEnemies [pu]).updatedPowerUps = [none]
    ∧ (checkPlayerPowerUps pl baseEnemies [pu]).powerUpCollected = true
    ∧ (checkPlayerPowerUps pl baseEnemies [pu]).events.count
        (GameEvent.powerUpCollected pu.type) = 2
    ∧ (checkPlayerPowerUps pl baseEnemies [pu]).playerPowerUps =
        (applyPowerUp pu.type pl.powerUps baseEnemies).powerUps
    ∧ (pu.type = .rapidFire →
        (checkPlayerPowerUps pl baseEnemies [pu]).playerPowerUps =
          { pl.powerUps with rapidFire := some ⟨true, 10000, 10000⟩ })
    ∧ (pu.type = .shield →
        (checkPlayerPowerUps pl baseEnemies [pu]).playerPowerUps =
          { pl.powerUps with shield := some ⟨true, 15000, 15000⟩ })
    ∧ (pu.type = .multiShot →
        (checkPlayerPowerUps pl baseEnemies [pu]).playerPowerUps =
          { pl.powerUps with multiShot := some ⟨true, 8000, 8000⟩ })
    ∧ (pu.type = .bomb →
        (checkPlayerPowerUps pl baseEnemies [pu]).enemiesSet = some []) := by
  refine ⟨?_, ?_, ?_, ?_, ?_, ?_, ?_, ?_⟩ <;>
    cases hty : pu.type <;>
      simp [checkPlayerPowerUps, powerUpPickups, pickUpAt, hov, hty, applyPowerUp,
        List.count_cons]

/-- Witness for C3's amended claim at a concrete shield pickup. -/
theorem powerup_pickup_resolution_witness :
    (checkPlayerPowerUps samplePlayer [] [cShieldPowerUp]).updatedPowerUps = [none]
    ∧ (checkPlayerPowerUps samplePlayer [] [cShieldPowerUp]).events.count
        (GameEvent.powerUpCollected .shield) = 2 := by
  have h := powerup_pickup_resolution samplePlayer [] cShieldPowerUp
    (by norm_num [playerPowerUpOverlap, rectOverlap, samplePlayer, cShieldPowerUp])
  exact ⟨h.1, by simpa [cShieldPowerUp] using h.2.2.1⟩

/-! ## C6: charge level and charged-shot modifiers -/

/-- Fields of a charged (non-special) projectile, before and after the
rapid-fire modifier. -/
theorem firedProjectile_charged_fields (hookBulletType : BulletType)
    (pl : Player) (L : ℕ) (hL : 0 < L) :
    (firedProjectile hookBulletType false L pl).width =
        bulletBaseWidth (pl.currentBulletType.getD hookBulletType) + L * 2
    ∧ (firedProjectile hookBulletType false L pl).height =
        bulletBaseHeight (pl.currentBulletType.getD hookBulletType) + L * 3
    ∧ (rapidFireActive pl = false →
        (firedProjectile hookBulletType false L pl).speed =
            bulletBaseSpeed (pl.currentBulletType.getD hookBulletType) + L * (1/20)
        ∧ (firedProjectile hookBulletType false L pl).damage =
            bulletBaseDamage (pl.currentBulletType.getD hookBulletType) + ((L / 2 : ℕ) : ℚ)) := by
  cases hrf : rapidFireActive pl <;>
    simp [firedProjectile, projStats, hL, hrf]

/-- C6 amended: the charge level is exactly `min(floor(elapsedMs/300), 5)`
and is monotone in the hold duration; a non-special shot with charge
level L > 0 has width base + L×2 and height base + L×3 always, and speed
base + L×0.05 and damage base + floor(L/2) provided rapidFire is not
active (otherwise the rapid-fire multipliers are applied on top). -/
theorem charged_shot_modifiers :
    (∀ elapsedMs : ℕ, chargeLevelOf elapsedMs = min (elapsedMs / 300) 5)
    ∧ (∀ e1 e2 : ℕ, e1 ≤ e2 → chargeLevelOf e1 ≤ chargeLevelOf e2)
    ∧ (∀ (hookBulletType : BulletType) (s : FireState) (L : ℕ),
        s.player.currentCooldown = 0 → 0 < L →
        (fireProjectile hookBulletType false L s).projectiles =
          s.projectiles ++ fireNewProjectiles hookBulletType false L s.player
        ∧ ∀ q ∈ fireNewProjectiles hookBulletType false L s.player,
            q.width =
                bulletBaseWidth (s.player.currentBulletType.getD hookBulletType) + L * 2
            ∧ q.height =
                bulletBaseHeight (s.player.currentBulletType.getD hookBulletType) + L * 3
            ∧ (rapidFireActive s.player = false →
                q.speed =
                    bulletBaseSpeed (s.player.currentBulletType.getD hookBulletType)
                      + L * (1/20)
                ∧ q.damage =
                    bulletBaseDamage (s.player.currentBulletType.getD hookBulletType)
                      + ((L / 2 : ℕ) : ℚ))) := by
  refine ⟨fun _ => rfl, ?_, ?_⟩
  · intro e1 e2 h
    exact min_le_min (Nat.div_le_div_right h) le_rfl
  · intro hookBulletType s L hcd hL
    refine ⟨by simp [fireProjectile, hcd], ?_⟩
    intro q hq
    have hfields := firedProjectile_charged_fields hookBulletType s.player L hL
    cases hms : multiShotActive s.player <;>
      simp [fireNewProjectiles, hms] at hq
    · subst hq
      exact hfields
    · rcases hq with h | h | h <;> subst h <;>
        exact ⟨hfields.1, hfields.2.1, hfields.2.2⟩

/-- Witness for C6's amended claim: a standard level-2 charged shot with
no rapidFire has width 14, height 26, speed 0.6 and damage 2. -/
theorem charged_shot_modifiers_witness :
    (fireProjectile .standard false 2 ⟨[], samplePlayer⟩).projectiles =
        [firedProjectile .standard false 2 samplePlayer]
    ∧ (firedProjectile .standard false 2 samplePlayer).width = 14
    ∧ (firedProjectile .standard false 2 samplePlayer).height = 26
    ∧ (firedProjectile .standard false 2 samplePlayer).speed = 3/5
    ∧ (firedProjectile .standard false 2 samplePlayer).damage = 2 := by
  have h := (charged_shot_modifiers.2.2 .standard ⟨[], samplePlayer⟩ 2 rfl
    (by norm_num))
  have hq : firedProjectile .standard false 2 samplePlayer ∈
      fireNewProjectiles .standard false 2 samplePlayer := by
    simp [fireNewProjectiles, multiShotActive, samplePlayer, basePowerUps]
  have hfields := h.2 _ hq
  have hrf : rapidFireActive samplePlayer = false := rfl
  refine ⟨?_, ?_, ?_, ?_, ?_⟩
  · have h1 := h.1
    simpa [fireNewProjectiles, multiShotActive, samplePlayer, basePowerUps] using h1
  · have hw := hfields.1
    norm_num [samplePlayer, bulletBaseWidth] at hw
    exact hw
  · have hh := hfields.2.1
    norm_num [samplePlayer, bulletBaseHeight] at hh
    exact hh
  · have := (hfields.2.2 hrf).1
    norm_num [samplePlayer, bulletBaseSpeed] at this
    simpa using this
  · have := (hfields.2.2 hrf).2
    norm_num [samplePlayer, bulletBaseDamage] at this
    simpa using this

/-- C6 counterexample: with rapidFire active, a standard level-2 charged
shot has damage (1 + 1) × 1.2 = 12/5, not the claimed base + floor(L/2)
= 2. -/
theorem charged_shot_rapidfire_counterexample :
    rapidFireActive rapidPlayer = true
    ∧ rapidPlayer.currentCooldown = 0
    ∧ (fireProjectile .standard false 2 ⟨[], rapidPlayer⟩).projectiles.map
        (fun q => q.damage) = [12/5]
    ∧ ((12 : ℚ)/5) ≠ bulletBaseDamage .standard + ((2 / 2 : ℕ) : ℚ) := by
  refine ⟨rfl, rfl, ?_, by norm_num [bulletBaseDamage]⟩
  norm_num [fireProjectile, rapidPlayer, samplePlayer, basePowerUps,
    fireNewProjectiles, firedProjectile, projStats, multiShotActive,
    rapidFireActive, bulletBaseDamage]

/-! ## C2: the shield power-up does not gate the player × enemy check -/

/-- C2 failing input: the player holds an active shield *power-up*
(`powerUps.shield.active = true`, `shieldActive = false`, exactly the
state `applyPowerUp("shield")` produces) and overlaps an enemy; the
player-enemy check still runs, emits the health-loss event and removes
the enemy, because `checkCollisions` only consults the manual-ability
flag `shieldActive`. -/
theorem shield_pickup_gives_no_protection :
    shieldedPlayer.powerUps.shield = some ⟨true, 15000, 15000⟩
    ∧ shieldedPlayer.shieldActive = false
    ∧ (applyPowerUp .shield basePowerUps []).powerUps.shield = some ⟨true, 15000, 15000⟩
    ∧ playerEnemyOverlap shieldedPlayer cEnemy = true
    ∧ (checkCollisions shieldedPlayer [cEnemy] [] []).events = [GameEvent.enemyReachedBottom]
    ∧ (checkCollisions shieldedPlayer [cEnemy] [] []).enemies = [] := by
  have hov : playerEnemyOverlap shieldedPlayer cEnemy = true := by
    norm_num [playerEnemyOverlap, rectOverlap, shieldedPlayer, samplePlayer, cEnemy]
  have hsa : shieldedPlayer.shieldActive = false := rfl
  refine ⟨rfl, rfl, rfl, hov, ?_, ?_⟩ <;>
    simp [checkCollisions, checkProjEnemy, projEnemyLoop, checkPlayerPowerUps,
      powerUpPickups, checkPlayerEnemies, hsa, playerEnemyCrashes, crashAt, hov]

/-! ## C1: projectile × enemy resolution

Supporting lemmas characterising the nested `forEach` loops of
`checkCollisions`' projectile-enemy phase. -/

/-- One pair-check rewrites the enemy cell to `outcomeCell` on overlap. -/
theorem hitEnemy_updatedEnemies (pIdx eIdx : ℕ) (p : Projectile) (e : Enemy)
    (acc : PEAcc) :
    (hitEnemy pIdx eIdx p e acc).updatedEnemies =
      if projEnemyOverlap p e then acc.updatedEnemies.set eIdx (outcomeCell p e)
      else acc.updatedEnemies := by
  unfold hitEnemy outcomeCell
  cases hov : projEnemyOverlap p e
  · simp
  · by_cases hd : e.health - hitDamage p ≤ 0 <;> simp [hd, List.set_set]

/-- One pair-check nulls the projectile cell on overlap. -/
theorem hitEnemy_updatedProjectiles (pIdx eIdx : ℕ) (p : Projectile) (e : Enemy)
    (acc : PEAcc) :
    (hitEnemy pIdx eIdx p e acc).updatedProjectiles =
      if projEnemyOverlap p e then acc.updatedProjectiles.set pIdx none
      else acc.updatedProjectiles := by
  unfold hitEnemy
  cases hov : projEnemyOverlap p e
  · simp
  · by_cases hd : e.health - hitDamage p ≤ 0 <;> simp [hd]

/-- One pair-check appends the destroyed event exactly when the overlap
kills. -/
theorem hitEnemy_events (pIdx eIdx : ℕ) (p : Projectile) (e : Enemy)
    (acc : PEAcc) :
    (hitEnemy pIdx eIdx p e acc).events =
      acc.events ++
        (if projEnemyOverlap p e = true ∧ e.health - hitDamage p ≤ 0 then
          [GameEvent.enemyDestroyed (enemyPoints e.type)]
        else []) := by
  unfold hitEnemy
  cases hov : projEnemyOverlap p e
  · simp [hov]
  · by_cases hd : e.health - hitDamage p ≤ 0 <;> simp [hov, hd]

/-- `hitEnemy` preserves the enemy-array length. -/
theorem hitEnemy_enemies_length (pIdx eIdx : ℕ) (p : Projectile) (e : Enemy)
    (acc : PEAcc) :
    (hitEnemy pIdx eIdx p e acc).updatedEnemies.length =
      acc.updatedEnemies.length := by
  rw [hitEnemy_updatedEnemies]
  split <;> simp

/-- `hitEnemy` preserves the projectile-array length. -/
theorem hitEnemy_projectiles_length (pIdx eIdx : ℕ) (p : Projectile) (e : Enemy)
    (acc : PEAcc) :
    (hitEnemy pIdx eIdx p e acc).updatedProjectiles.length =
      acc.updatedProjectiles.length := by
  rw [hitEnemy_updatedProjectiles]
  split <;> simp

/-- The inner enemy sweep preserves the enemy-array length. -/
theorem hitEnemies_enemies_length (pIdx : ℕ) (p : Projectile) :
    ∀ (es : List Enemy) (n : ℕ) (acc : PEAcc),
      (hitEnemies pIdx p n es acc).updatedEnemies.length =
        acc.updatedEnemies.length := by
  intro es
  induction es with
  | nil => intro n acc; rfl
  | cons e es ih =>
      intro n acc
      rw [hitEnemies, ih, hitEnemy_enemies_length]

/-- The inner enemy sweep preserves the projectile-array length. -/
theorem hitEnemies_projectiles_length (pIdx : ℕ) (p : Projectile) :
    ∀ (es : List Enemy) (n : ℕ) (acc : PEAcc),
      (hitEnemies pIdx p n es acc).updatedProjectiles.length =
        acc.updatedProjectiles.length := by
  intro es
  induction es with
  | nil => intro n acc; rfl
  | cons e es ih =>
      intro n acc
      rw [hitEnemies, ih, hitEnemy_projectiles_length]

/-- The outer projectile loop preserves the enemy-array length. -/
theorem projEnemyLoop_enemies_length (enemies : List Enemy) :
    ∀ (ps : List Projectile) (pIdx : ℕ) (acc : PEAcc),
      (projEnemyLoop enemies pIdx ps acc).updatedEnemies.length =
        acc.updatedEnemies.length := by
  intro ps
  induction ps with
  | nil => intro pIdx acc; rfl
  | cons p ps ih =>
      intro pIdx acc
      rw [projEnemyLoop, ih, hitEnemies_enemies_length]

/-- The outer projectile loop preserves the projectile-array length. -/
theorem projEnemyLoop_projectiles_length (enemies : List Enemy) :
    ∀ (ps : List Projectile) (pIdx : ℕ) (acc : PEAcc),
      (projEnemyLoop enemies pIdx ps acc).updatedProjectiles.length =
        acc.updatedProjectiles.length := by
  intro ps
  induction ps with
  | nil => intro pIdx acc; rfl
  | cons p ps ih =>
      intro pIdx acc
      rw [projEnemyLoop, ih, hitEnemies_projectiles_length]

/-- The `enemiesDestroyed` flag after one pair-check. -/
theorem hitEnemy_destroyedFlag (pIdx eIdx : ℕ) (p : Projectile) (e : Enemy)
    (acc : PEAcc) :
    (hitEnemy pIdx eIdx p e acc).enemiesDestroyed =
      (acc.enemiesDestroyed
        || (projEnemyOverlap p e && decide (e.health - hitDamage p ≤ 0))) := by
  unfold hitEnemy
  cases hov : projEnemyOverlap p e
  · simp
  · by_cases hd : e.health - hitDamage p ≤ 0 <;> simp [hd]

/-- If the inner sweep ends with `enemiesDestroyed = false`, it started
false and appended no events. -/
theorem hitEnemies_not_destroyed (pIdx : ℕ) (p : Projectile) :
    ∀ (es : List Enemy) (n : ℕ) (acc : PEAcc),
      (hitEnemies pIdx p n es acc).enemiesDestroyed = false →
      acc.enemiesDestroyed = false
        ∧ (hitEnemies pIdx p n es acc).events = acc.events := by
  intro es
  induction es with
  | nil => intro n acc h; exact ⟨h, rfl⟩
  | cons e es ih =>
      intro n acc h
      rw [hitEnemies] at h ⊢
      obtain ⟨h1, h2⟩ := ih (n + 1) _ h
      have h3 := hitEnemy_destroyedFlag pIdx n p e acc
      rw [h1] at h3
      obtain ⟨h4, h5⟩ := Bool.or_eq_false_iff.mp h3.symm
      have h6 : ¬ (projEnemyOverlap p e = true ∧ e.health - hitDamage p ≤ 0) := by
        rintro ⟨ha, hb⟩
        rw [ha, decide_eq_true hb] at h5
        simp at h5
      refine ⟨h4, ?_⟩
      rw [h2, hitEnemy_events, if_neg h6, List.append_nil]

/-- If the outer loop ends with `enemiesDestroyed = false`, it started
false and appended no events. -/
theorem projEnemyLoop_not_destroyed (enemies : List Enemy) :
    ∀ (ps : List Projectile) (pIdx : ℕ) (acc : PEAcc),
      (projEnemyLoop enemies pIdx ps acc).enemiesDestroyed = false →
      acc.enemiesDestroyed = false
        ∧ (projEnemyLoop enemies pIdx ps acc).events = acc.events := by
  intro ps
  induction ps with
  | nil => intro pIdx acc h; exact ⟨h, rfl⟩
  | cons p ps ih =>
      intro pIdx acc h
      rw [projEnemyLoop] at h ⊢
      obtain ⟨h1, h2⟩ := ih (pIdx + 1) _ h
      obtain ⟨h3, h4⟩ := hitEnemies_not_destroyed pIdx p enemies 0 acc h1
      exact ⟨h3, by rw [h2, h4]⟩

/-- The player-enemy sweep is the identity when no enemy overlaps the
player. -/
theorem playerEnemyCrashes_nooverlap (pl : Player) :
    ∀ (es : List Enemy) (idx : ℕ) (acc : CEAcc),
      (∀ e ∈ es, playerEnemyOverlap pl e = false) →
      playerEnemyCrashes pl idx es acc = acc := by
  intro es
  induction es with
  | nil => intro idx acc _; rfl
  | cons e es ih =>
      intro idx acc hall
      have he := hall e (List.mem_cons_self e es)
      have hc : crashAt pl idx e acc = acc := by
        unfold crashAt
        rw [if_neg (by simp [he])]
      rw [playerEnemyCrashes, hc]
      exact ih (idx + 1) acc (fun e' he' => hall e' (List.mem_cons_of_mem e he'))

/-- C9 counterexample: a bomb pickup (k = 2 enemies) together with a
same-frame projectile kill.  The kill sets `enemiesDestroyed`, so the
final filtered `setEnemies` is queued after the bomb's `setEnemies([])`
and wins: the frame ends with `[eFar]`, not the empty collection the
claim requires, while the 10·k = 20 points are still awarded. -/
theorem bomb_pickup_override_counterexample :
    cBombPU.type = .bomb
    ∧ playerPowerUpOverlap samplePlayer cBombPU = true
    ∧ projEnemyOverlap cpK eKill = true
    ∧ GameEvent.enemyDestroyed ((2 : ℚ) * 10) ∈
        (checkCollisions samplePlayer [eKill, eFar] [cpK] [cBombPU]).events
    ∧ (checkCollisions samplePlayer [eKill, eFar] [cpK] [cBombPU]).enemies = [eFar]
    ∧ ([eFar] : List Enemy) ≠ [] := by
  have h1 : projEnemyOverlap cpK eKill = true := by
    norm_num [projEnemyOverlap, rectOverlap, cpK, eKill]
  have h2 : projEnemyOverlap cpK eFar = false := by
    norm_num [projEnemyOverlap, rectOverlap, cpK, eFar]
  have h3 : playerPowerUpOverlap samplePlayer cBombPU = true := by
    norm_num [playerPowerUpOverlap, rectOverlap, samplePlayer, cBombPU]
  have h4 : playerEnemyOverlap samplePlayer eKill = false := by
    norm_num [playerEnemyOverlap, rectOverlap, samplePlayer, eKill]
  have h5 : playerEnemyOverlap samplePlayer eFar = false := by
    norm_num [playerEnemyOverlap, rectOverlap, samplePlayer, eFar]
  have hd : hitDamage cpK = 1 := by norm_num [hitDamage, cpK]
  have hk : eKill.health = 1 := rfl
  have hkt : eKill.type = EnemyType.basic := rfl
  have hsa : samplePlayer.shieldActive = false := rfl
  have hbt : cBombPU.type = PowerUpType.bomb := rfl
  refine ⟨hbt, h3, h1, ?_, ?_, by simp⟩ <;>
    norm_num [checkCollisions, checkProjEnemy, projEnemyLoop, hitEnemies,
      hitEnemy, checkPlayerPowerUps, powerUpPickups, pickUpAt, applyPowerUp,
      checkPlayerEnemies, playerEnemyCrashes, crashAt, enemyPoints,
      h1, h2, h3, h4, h5, hd, hk, hkt, hsa, hbt, List.set, List.filterMap_cons]

/-- C9 amended: `applyPowerUp("bomb")` with k enemies present always
invokes the destroyed callback exactly once with exactly 10·k points,
queues `setEnemies([])` and attaches no duration tracking; through a full
`checkCollisions` frame, the enemy collection indeed ends empty and the
10·k award is emitted exactly once provided no enemy is removed by the
projectile × enemy or player × enemy checks that same frame (otherwise
the final filtered `setEnemies` overrides the bomb's clear — see the
counterexample). -/
theorem bomb_pickup_resolution :
    (∀ (base : PlayerPowerUps) (enemies : List Enemy),
      applyPowerUp .bomb base enemies =
        ⟨base, some [],
          [GameEvent.enemyDestroyed ((enemies.length : ℚ) * 10),
            GameEvent.powerUpCollected .bomb]⟩)
    ∧ (∀ (pl : Player) (es : List Enemy) (ps : List Projectile) (pu : PowerUp),
        pu.type = .bomb → playerPowerUpOverlap pl pu = true →
        (checkProjEnemy ps es).enemiesDestroyed = false →
        (∀ e ∈ es, playerEnemyOverlap pl e = false) →
        (checkCollisions pl es ps [pu]).enemies = []
        ∧ (checkCollisions pl es ps [pu]).events.count
            (GameEvent.enemyDestroyed ((es.length : ℚ) * 10)) = 1
        ∧ (checkCollisions pl es ps [pu]).player.powerUps = pl.powerUps) := by
  constructor
  · intro base enemies
    rfl
  · intro pl es ps pu hty hov hflag hno
    have hflag' : (projEnemyLoop es 0 ps
        ⟨es.map some, ps.map some, [], false⟩).enemiesDestroyed = false := hflag
    have hpev : (checkProjEnemy ps es).events = [] :=
      (projEnemyLoop_not_destroyed es ps 0 _ hflag').2
    have hce : checkPlayerEnemies pl es (checkProjEnemy ps es).updatedEnemies
        (checkProjEnemy ps es).enemiesDestroyed =
        ⟨(checkProjEnemy ps es).updatedEnemies, [],
          (checkProjEnemy ps es).enemiesDestroyed⟩ := by
      unfold checkPlayerEnemies
      split
      · rfl
      · exact playerEnemyCrashes_nooverlap pl es 0 _ hno
    refine ⟨?_, ?_, ?_⟩
    · simp only [checkCollisions]
      rw [hce]
      simp [hflag, checkPlayerPowerUps, powerUpPickups, pickUpAt, hov, hty,
        applyPowerUp]
    · simp only [checkCollisions]
      rw [hce]
      simp [hpev, hflag, checkPlayerPowerUps, powerUpPickups, pickUpAt, hov,
        hty, applyPowerUp, List.count_cons]
    · simp only [checkCollisions]
      simp [checkPlayerPowerUps, powerUpPickups, pickUpAt, hov, hty,
        applyPowerUp]

/-- Witness for C9's amended claim: a lone bomb pickup, no projectiles,
one enemy away from the player — the frame ends with no enemies and one
10·k award. -/
theorem bomb_pickup_resolution_witness :
    (checkCollisions samplePlayer [eFar] [] [cBombPU]).enemies = []
    ∧ (checkCollisions samplePlayer [eFar] [] [cBombPU]).events.count
        (GameEvent.enemyDestroyed ((([eFar] : List Enemy).length : ℚ) * 10)) = 1 := by
  have h := bomb_pickup_resolution.2 samplePlayer [eFar] [] cBombPU rfl
    (by norm_num [playerPowerUpOverlap, rectOverlap, samplePlayer, cBombPU])
    rfl
    (by
      intro e he
      simp only [List.mem_singleton] at he
      subst he
      norm_num [playerEnemyOverlap, rectOverlap, samplePlayer, eFar])
  exact ⟨h.1, h.2.1⟩

end Game
